import Mathlib

/-!
# Verification of the FlowMeter measurement core

Shallow embedding of the FlowMeter library (src/src/FlowMeter.h).  C++
`double` values are modelled as exact rationals `ℚ`; `unsigned int` and
`unsigned long` as `ℕ`.  The header defines the calibration holder
(`FlowSensorCalibration`) inline; the bodies of `FlowMeter::tick`,
`count`, `reset`, the constructor, the query methods and the constant
`FS400A` live in `FlowMeter.cpp`, which is not part of the sources, so
those operations are modelled from the specification (marked
`Modelled from the spec:` below).
-/

namespace FlowMeterLib

/-- `FlowSensorProperties` from src/src/FlowMeter.h: `capacity` is the upper
limit of the flow rate (l/min), `kFactor` the pulse-frequency-to-flowrate
constant ((pulses/s)/(l/min)), `mFactor` a ten-entry multiplicative
correction table indexed by flow decile. -/
structure FlowSensorProperties where
  capacity : ℚ
  kFactor : ℚ
  mFactor : Fin 10 → ℚ

/-- Modelled from the spec: the reference sensor constant `FS400A` is only
declared `extern` in the header; its definition is in FlowMeter.cpp, not
in the sources.  The spec gives capacity 60 l/min, kFactor 4.8 and a
meter-factor table of all ones. -/
def FS400A : FlowSensorProperties :=
  { capacity := 60, kFactor := 24 / 5, mFactor := fun _ => 1 }

/-- C++ conversion from `double` to `unsigned int` truncates toward zero
(it is only defined for values representable in the target type).  On the
nonnegative rationals that model the stored `double` values this is the
floor; negative inputs, undefined behaviour in C++, are mapped to 0. -/
def doubleToUnsigned (q : ℚ) : ℕ := ⌊q⌋.toNat

/-- `FlowSensorCalibration` from src/src/FlowMeter.h: a passive wrapper
around one `FlowSensorProperties` value (`_properties`). -/
structure FlowSensorCalibration where
  properties : FlowSensorProperties

namespace FlowSensorCalibration

/-- `setCapacity(double capacity)`: `this->_properties.capacity = capacity`. -/
def setCapacity (c : FlowSensorCalibration) (capacity : ℚ) : FlowSensorCalibration :=
  { c with properties := { c.properties with capacity := capacity } }

/-- `setKFactor(double kFactor)`: `this->_properties.kFactor = kFactor`. -/
def setKFactor (c : FlowSensorCalibration) (kFactor : ℚ) : FlowSensorCalibration :=
  { c with properties := { c.properties with kFactor := kFactor } }

/-- `setMeterFactorPerDecile(unsigned int decile, unsigned int mFactor)`:
`this->_properties.mFactor[decile] = mFactor`.  The second parameter is an
`unsigned int` in the source, so the stored `double` is the (exactly
converted) natural number.  Writing through an out-of-range index is
undefined behaviour in C++; the embedding restricts the index to `Fin 10`. -/
def setMeterFactorPerDecile (c : FlowSensorCalibration) (decile : Fin 10)
    (mFactor : ℕ) : FlowSensorCalibration :=
  { c with properties :=
    { c.properties with
      mFactor := Function.update c.properties.mFactor decile (mFactor : ℚ) } }

/-- `getProperties()`: returns `this->_properties` by value. -/
def getProperties (c : FlowSensorCalibration) : FlowSensorProperties :=
  c.properties

/-- `getCapacity()`: returns `this->_properties.capacity`. -/
def getCapacity (c : FlowSensorCalibration) : ℚ :=
  c.properties.capacity

/-- `getKFactor()`: returns `this->_properties.kFactor`. -/
def getKFactor (c : FlowSensorCalibration) : ℚ :=
  c.properties.kFactor

/-- `getMeterFactorPerDecile(unsigned int decile)`: returns
`this->_properties.mFactor[decile]` with return type `unsigned int`, so the
stored `double` is truncated toward zero on the way out. -/
def getMeterFactorPerDecile (c : FlowSensorCalibration) (decile : Fin 10) : ℕ :=
  doubleToUnsigned (c.properties.mFactor decile)

end FlowSensorCalibration

/-- The `FlowMeter` state from src/src/FlowMeter.h: pin, a private copy of
the sensor properties, the window-local values (`_currentDuration` in ms,
`_currentFlowrate`, `_currentVolume`, `_currentCorrection`), the lifetime
accumulators (`_totalDuration` in ms, `_totalVolume`, `_totalCorrection`)
and the interrupt-shared pulse counter `_currentPulses`. -/
structure FlowMeter where
  pin : ℕ
  properties : FlowSensorProperties
  currentDuration : ℕ
  currentFlowrate : ℚ
  currentVolume : ℚ
  currentCorrection : ℚ
  totalDuration : ℕ
  totalVolume : ℚ
  totalCorrection : ℚ
  currentPulses : ℕ

namespace FlowMeter

/-- Modelled from the spec: the constructor body is in FlowMeter.cpp, not
in the sources.  The spec says a meter is constructed from a pin and a
calibration with all accumulators starting at zero. -/
def init (pin : ℕ) (prop : FlowSensorProperties) : FlowMeter :=
  { pin := pin, properties := prop,
    currentDuration := 0, currentFlowrate := 0, currentVolume := 0,
    currentCorrection := 0,
    totalDuration := 0, totalVolume := 0, totalCorrection := 0,
    currentPulses := 0 }

/-- Modelled from the spec: decile selection in `FlowMeter::tick`
(FlowMeter.cpp, not in the sources), spec step 5:
`i = clamp(floor((Q_raw / capacity) * 10), 0, 9)`.  `Int.toNat` realises
the lower clamp at 0, `min _ 9` the upper clamp. -/
def decileIndex (qraw capacity : ℚ) : ℕ :=
  min (⌊qraw / capacity * 10⌋).toNat 9

theorem decileIndex_lt (qraw capacity : ℚ) : decileIndex qraw capacity < 10 :=
  Nat.lt_succ_of_le (Nat.min_le_right _ 9)

/-- Modelled from the spec: spec steps 3 and 4 of `FlowMeter::tick`
(FlowMeter.cpp, not in the sources): pulse frequency
`f = p / (d_ms / 1000)` and uncorrected flowrate `Q_raw = f / kFactor`. -/
def rawFlowrate (m : FlowMeter) (duration : ℕ) : ℚ :=
  (m.currentPulses : ℚ) / ((duration : ℚ) / 1000) / m.properties.kFactor

/-- Modelled from the spec: the body of `FlowMeter::tick` is in
FlowMeter.cpp, not in the sources.  Spec section 4.3.1: snapshot-and-clear
the pulse counter; a zero duration is degenerate (zero flowrate and
volume, correction 1, lifetime accumulators untouched); otherwise compute
the raw flowrate, select the decile correction, apply it, derive the
window volume and advance the lifetime accumulators. -/
def tick (m : FlowMeter) (duration : ℕ) : FlowMeter :=
  if duration = 0 then
    { m with currentPulses := 0,
             currentFlowrate := 0, currentVolume := 0, currentCorrection := 1 }
  else
    let seconds : ℚ := (duration : ℚ) / 1000
    let qraw : ℚ := m.rawFlowrate duration
    let correction : ℚ :=
      m.properties.mFactor ⟨decileIndex qraw m.properties.capacity,
                            decileIndex_lt _ _⟩
    let flowrate : ℚ := qraw * correction
    let volume : ℚ := flowrate * seconds / 60
    { m with currentPulses := 0,
             currentDuration := duration,
             currentFlowrate := flowrate,
             currentVolume := volume,
             currentCorrection := correction,
             totalDuration := m.totalDuration + duration,
             totalVolume := m.totalVolume + volume,
             totalCorrection := m.totalCorrection + correction * (duration : ℚ) }

/-- Modelled from the spec: the body of `FlowMeter::count` is in
FlowMeter.cpp, not in the sources.  It increments the pulse counter; it is
the interrupt entry point. -/
def count (m : FlowMeter) : FlowMeter :=
  { m with currentPulses := m.currentPulses + 1 }

/-- `n` consecutive `count` calls (pulses arriving during one window). -/
def countN (m : FlowMeter) (n : ℕ) : FlowMeter :=
  { m with currentPulses := m.currentPulses + n }

/-- Modelled from the spec: the body of `FlowMeter::reset` is in
FlowMeter.cpp, not in the sources.  It zeroes the window-local values, the
lifetime accumulators and the pulse counter, preserving pin and
calibration. -/
def reset (m : FlowMeter) : FlowMeter :=
  { m with currentDuration := 0, currentFlowrate := 0, currentVolume := 0,
           currentCorrection := 0,
           totalDuration := 0, totalVolume := 0, totalCorrection := 0,
           currentPulses := 0 }

/-- Modelled from the spec: the body of `FlowMeter::getCurrentError` is in
FlowMeter.cpp, not in the sources.  The spec defines it as
`|currentCorrection - 1.0|`. -/
def getCurrentError (m : FlowMeter) : ℚ :=
  |m.currentCorrection - 1|

/-- Modelled from the spec: the body of `FlowMeter::getTotalError` is in
FlowMeter.cpp, not in the sources.  The spec defines it as
`|(totalCorrection / totalDuration) - 1.0|` with a zero result guarding a
zero `totalDuration`. -/
def getTotalError (m : FlowMeter) : ℚ :=
  if m.totalDuration = 0 then 0
  else |m.totalCorrection / (m.totalDuration : ℚ) - 1|

/-- Modelled from the spec: the body of `FlowMeter::getTotalFlowrate` is in
FlowMeter.cpp, not in the sources.  The spec defines it as
`totalVolume / (totalDuration in minutes)` (milliseconds / 60000) with a
zero result guarding a zero `totalDuration`. -/
def getTotalFlowrate (m : FlowMeter) : ℚ :=
  if m.totalDuration = 0 then 0
  else m.totalVolume / ((m.totalDuration : ℚ) / 60000)

end FlowMeter

/-- Run a sequence of measurement windows: for each pair `(p, d)` the
window receives `p` pulses (`countN`) and is closed by `tick d`. -/
def runWindows (m : FlowMeter) : List (ℕ × ℕ) → FlowMeter
  | [] => m
  | w :: ws => runWindows ((m.countN w.1).tick w.2) ws

/-- The per-window observations along a run: for each window, its duration
together with the `currentVolume` and `currentCorrection` the meter shows
right after that window closes. -/
def windowTrace (m : FlowMeter) : List (ℕ × ℕ) → List (ℕ × ℚ × ℚ)
  | [] => []
  | w :: ws =>
    (w.2, ((m.countN w.1).tick w.2).currentVolume,
          ((m.countN w.1).tick w.2).currentCorrection)
      :: windowTrace ((m.countN w.1).tick w.2) ws

/-- A meter on pin 2 with the reference calibration and 24 pending pulses. -/
def meter24 : FlowMeter := (FlowMeter.init 2 FS400A).countN 24

/-- A meter on pin 2 with the reference calibration and 485 pending pulses. -/
def meter485 : FlowMeter := (FlowMeter.init 2 FS400A).countN 485

/-- C4: a zero-duration tick is degenerate: for every meter state (hence
every pending pulse count) it produces zero `currentFlowrate`, zero
`currentVolume`, `currentCorrection` 1, and leaves `totalDuration`,
`totalVolume` and `totalCorrection` unchanged. -/
theorem tick_zero_duration (m : FlowMeter) :
    (m.tick 0).currentFlowrate = 0 ∧ (m.tick 0).currentVolume = 0 ∧
    (m.tick 0).currentCorrection = 1 ∧
    (m.tick 0).totalDuration = m.totalDuration ∧
    (m.tick 0).totalVolume = m.totalVolume ∧
    (m.tick 0).totalCorrection = m.totalCorrection := by
  simp [FlowMeter.tick]

/-- C8: `reset` yields exactly the state of a freshly constructed meter
with the same pin and the same calibration: all window-local values, all
lifetime accumulators and the pulse counter are zero, and the calibration
is unchanged. -/
theorem reset_eq_init (m : FlowMeter) :
    m.reset = FlowMeter.init m.pin m.properties := rfl

/-- C6: `getCurrentError` is exactly `|currentCorrection - 1|`, and
`getTotalError` is exactly `|totalCorrection / totalDuration - 1|` when
`totalDuration > 0` and `0` when `totalDuration = 0`, in every state. -/
theorem error_queries_spec (m : FlowMeter) :
    m.getCurrentError = |m.currentCorrection - 1| ∧
    (0 < m.totalDuration →
      m.getTotalError = |m.totalCorrection / (m.totalDuration : ℚ) - 1|) ∧
    (m.totalDuration = 0 → m.getTotalError = 0) := by
  refine ⟨rfl, fun h => ?_, fun h => ?_⟩
  · simp [FlowMeter.getTotalError, Nat.pos_iff_ne_zero.mp h]
  · simp [FlowMeter.getTotalError, h]

theorem error_queries_spec_witness :
    0 < (meter24.tick 1000).totalDuration ∧
    (meter24.tick 1000).getTotalError =
      |(meter24.tick 1000).totalCorrection /
        ((meter24.tick 1000).totalDuration : ℚ) - 1| :=
  ⟨by decide, (error_queries_spec (meter24.tick 1000)).2.1 (by decide)⟩

/-- C7: `getTotalFlowrate` is `totalVolume` divided by `totalDuration`
expressed in minutes (ms / 60000) when `totalDuration > 0`, and the
division is guarded: the result is `0` when `totalDuration = 0`. -/
theorem getTotalFlowrate_spec (m : FlowMeter) :
    (0 < m.totalDuration →
      m.getTotalFlowrate = m.totalVolume / ((m.totalDuration : ℚ) / 60000)) ∧
    (m.totalDuration = 0 → m.getTotalFlowrate = 0) := by
  refine ⟨fun h => ?_, fun h => ?_⟩
  · simp [FlowMeter.getTotalFlowrate, Nat.pos_iff_ne_zero.mp h]
  · simp [FlowMeter.getTotalFlowrate, h]

theorem getTotalFlowrate_spec_witness :
    0 < (meter24.tick 1000).totalDuration ∧
    (meter24.tick 1000).getTotalFlowrate =
      (meter24.tick 1000).totalVolume /
        (((meter24.tick 1000).totalDuration : ℚ) / 60000) :=
  ⟨by decide, (getTotalFlowrate_spec (meter24.tick 1000)).1 (by decide)⟩

/-- C5 counterexample: the set/get pair on the meter-factor table does not
round-trip a real value.  In the source both the setter parameter and the
getter return type are `unsigned int`, so a C++ call with the real argument
3/2 converts it to 1 at the call boundary and the getter returns 1 ≠ 3/2. -/
theorem setMeterFactor_real_roundtrip_cex :
    ¬ ((((FlowSensorCalibration.mk FS400A).setMeterFactorPerDecile 0
          (doubleToUnsigned (3 / 2))).getMeterFactorPerDecile 0 : ℕ) : ℚ)
        = (3 / 2 : ℚ) := by
  have h1 : doubleToUnsigned (3 / 2 : ℚ) = 1 := by norm_num [doubleToUnsigned]
  rw [h1]
  norm_num [FlowSensorCalibration.getMeterFactorPerDecile,
            FlowSensorCalibration.setMeterFactorPerDecile, doubleToUnsigned]

/-- C5 amended: the round-trip does hold for every natural-number value:
after `setMeterFactorPerDecile(i, v)` with `v : ℕ` (the setter's actual
`unsigned int` parameter type), `getMeterFactorPerDecile(i)` returns `v`. -/
theorem setMeterFactor_nat_roundtrip (c : FlowSensorCalibration) (i : Fin 10)
    (v : ℕ) :
    (c.setMeterFactorPerDecile i v).getMeterFactorPerDecile i = v := by
  simp [FlowSensorCalibration.getMeterFactorPerDecile,
        FlowSensorCalibration.setMeterFactorPerDecile, doubleToUnsigned]

/-- C10: each calibration setter modifies only its own field: `setCapacity`
leaves `kFactor` and the whole meter-factor table unchanged, `setKFactor`
leaves `capacity` and the table unchanged, and `setMeterFactorPerDecile i`
leaves `capacity`, `kFactor` and every table entry other than `i`
unchanged; `getProperties` is a pure read of the stored properties (all
getters in the embedding are functions of the state and mutate nothing). -/
theorem calibration_setters_frame (c : FlowSensorCalibration) (x k : ℚ)
    (i j : Fin 10) (v : ℕ) (hji : j ≠ i) :
    (c.setCapacity x).properties.kFactor = c.properties.kFactor ∧
    (∀ t, (c.setCapacity x).properties.mFactor t = c.properties.mFactor t) ∧
    (c.setKFactor k).properties.capacity = c.properties.capacity ∧
    (∀ t, (c.setKFactor k).properties.mFactor t = c.properties.mFactor t) ∧
    (c.setMeterFactorPerDecile i v).properties.capacity =
      c.properties.capacity ∧
    (c.setMeterFactorPerDecile i v).properties.kFactor =
      c.properties.kFactor ∧
    (c.setMeterFactorPerDecile i v).properties.mFactor j =
      c.properties.mFactor j ∧
    c.getProperties = c.properties := by
  refine ⟨rfl, fun t => rfl, rfl, fun t => rfl, rfl, rfl, ?_, rfl⟩
  simp [FlowSensorCalibration.setMeterFactorPerDecile,
        Function.update_noteq hji]

theorem calibration_setters_frame_witness :
    (1 : Fin 10) ≠ 0 ∧
    ((FlowSensorCalibration.mk FS400A).setMeterFactorPerDecile 0
        3).properties.mFactor 1 =
      (FlowSensorCalibration.mk FS400A).properties.mFactor 1 :=
  ⟨by decide,
   (calibration_setters_frame (FlowSensorCalibration.mk FS400A) 5 7 0 1 3
      (by decide)).2.2.2.2.2.2.1⟩

/-- C1: for every pending pulse count `p ≥ 0` and duration `d > 0`, when
every meter-factor entry is 1, `tick d` sets `currentFlowrate` to
`(p / (d / 1000)) / kFactor` (l/min) and `currentVolume` to that flowrate
times `(d / 1000) / 60` (liters). -/
theorem tick_uncalibrated_flow (m : FlowMeter) (d : ℕ)
    (hm : ∀ i, m.properties.mFactor i = 1) (hd : 0 < d) :
    (m.tick d).currentFlowrate =
      (m.currentPulses : ℚ) / ((d : ℚ) / 1000) / m.properties.kFactor ∧
    (m.tick d).currentVolume =
      (m.tick d).currentFlowrate * ((d : ℚ) / 1000) / 60 := by
  have hd0 : d ≠ 0 := Nat.pos_iff_ne_zero.mp hd
  constructor
  · simp [FlowMeter.tick, hd0, FlowMeter.rawFlowrate, hm]
  · simp [FlowMeter.tick, hd0]

theorem tick_uncalibrated_flow_witness :
    (∀ i, meter24.properties.mFactor i = 1) ∧ 0 < 1000 ∧
    (meter24.tick 1000).currentFlowrate =
      (meter24.currentPulses : ℚ) / ((1000 : ℚ) / 1000) /
        meter24.properties.kFactor :=
  ⟨fun i => rfl, by decide,
   (tick_uncalibrated_flow meter24 1000 (fun i => rfl) (by decide)).1⟩

/-- C3: for every pending pulse count and every duration `d > 0` (with the
spec's invariant `capacity > 0`), the decile index used by `tick` to
select the correction factor is exactly
`clamp(floor((Q_raw / capacity) * 10), 0, 9)` (stated over `ℤ` as
`max 0 (min 9 ⌊Q_raw / capacity * 10⌋)`); the index is never outside
`[0, 9]`, and any raw flowrate above `capacity` lands in band 9. -/
theorem tick_decile_clamp (m : FlowMeter) (d : ℕ) (hd : 0 < d)
    (hcap : 0 < m.properties.capacity) :
    (m.tick d).currentCorrection =
      m.properties.mFactor ⟨FlowMeter.decileIndex (m.rawFlowrate d) m.properties.capacity,
                            FlowMeter.decileIndex_lt _ _⟩ ∧
    ((FlowMeter.decileIndex (m.rawFlowrate d) m.properties.capacity : ℤ) =
      max 0 (min 9 ⌊m.rawFlowrate d / m.properties.capacity * 10⌋)) ∧
    FlowMeter.decileIndex (m.rawFlowrate d) m.properties.capacity ≤ 9 ∧
    (m.properties.capacity < m.rawFlowrate d →
      FlowMeter.decileIndex (m.rawFlowrate d) m.properties.capacity = 9) := by
  have hd0 : d ≠ 0 := Nat.pos_iff_ne_zero.mp hd
  refine ⟨by simp [FlowMeter.tick, hd0], ?_, Nat.min_le_right _ 9, fun hq => ?_⟩
  · simp only [FlowMeter.decileIndex]
    omega
  · have h1 : (1 : ℚ) < m.rawFlowrate d / m.properties.capacity :=
      (one_lt_div hcap).mpr hq
    have h2 : (10 : ℤ) ≤ ⌊m.rawFlowrate d / m.properties.capacity * 10⌋ := by
      apply Int.le_floor.mpr
      push_cast
      linarith
    simp only [FlowMeter.decileIndex]
    omega

theorem tick_decile_clamp_witness :
    0 < 1000 ∧ 0 < meter485.properties.capacity ∧
    FlowMeter.decileIndex (meter485.rawFlowrate 1000) meter485.properties.capacity ≤ 9 :=
  ⟨by decide, by decide,
   (tick_decile_clamp meter485 1000 (by decide) (by decide)).2.2.1⟩

@[simp] theorem countN_totalDuration (m : FlowMeter) (n : ℕ) :
    (m.countN n).totalDuration = m.totalDuration := rfl

@[simp] theorem countN_totalVolume (m : FlowMeter) (n : ℕ) :
    (m.countN n).totalVolume = m.totalVolume := rfl

@[simp] theorem countN_totalCorrection (m : FlowMeter) (n : ℕ) :
    (m.countN n).totalCorrection = m.totalCorrection := rfl

/-- Closing one window advances `totalDuration` by exactly the window's
duration (a zero-duration window adds zero because the degenerate branch
leaves the accumulators alone). -/
theorem tick_totalDuration (m : FlowMeter) (d : ℕ) :
    (m.tick d).totalDuration = m.totalDuration + d := by
  rcases Nat.eq_zero_or_pos d with h | h
  · subst h; simp [FlowMeter.tick]
  · simp [FlowMeter.tick, Nat.pos_iff_ne_zero.mp h]

/-- Closing one window advances `totalVolume` by exactly the window's
`currentVolume` (zero in the degenerate branch). -/
theorem tick_totalVolume (m : FlowMeter) (d : ℕ) :
    (m.tick d).totalVolume = m.totalVolume + (m.tick d).currentVolume := by
  rcases Nat.eq_zero_or_pos d with h | h
  · subst h; simp [FlowMeter.tick]
  · simp [FlowMeter.tick, Nat.pos_iff_ne_zero.mp h]

/-- Closing one window advances `totalCorrection` by exactly the window's
`currentCorrection` weighted by its duration (zero in the degenerate
branch, where the weight is zero). -/
theorem tick_totalCorrection (m : FlowMeter) (d : ℕ) :
    (m.tick d).totalCorrection =
      m.totalCorrection + (m.tick d).currentCorrection * (d : ℚ) := by
  rcases Nat.eq_zero_or_pos d with h | h
  · subst h; simp [FlowMeter.tick]
  · simp [FlowMeter.tick, Nat.pos_iff_ne_zero.mp h]

/-- The accumulators after a run of windows are the starting accumulators
plus the sums of the per-window observations. -/
theorem runWindows_totals (ws : List (ℕ × ℕ)) (m : FlowMeter) :
    (runWindows m ws).totalDuration =
      m.totalDuration + ((windowTrace m ws).map fun t => t.1).sum ∧
    (runWindows m ws).totalVolume =
      m.totalVolume + ((windowTrace m ws).map fun t => t.2.1).sum ∧
    (runWindows m ws).totalCorrection =
      m.totalCorrection +
        ((windowTrace m ws).map fun t => t.2.2 * (t.1 : ℚ)).sum := by
  induction ws generalizing m with
  | nil => simp [runWindows, windowTrace]
  | cons w ws ih =>
    obtain ⟨ih1, ih2, ih3⟩ := ih ((m.countN w.1).tick w.2)
    refine ⟨?_, ?_, ?_⟩
    · simp only [runWindows, windowTrace, List.map_cons, List.sum_cons, ih1,
                 tick_totalDuration, countN_totalDuration]
      omega
    · simp only [runWindows, windowTrace, List.map_cons, List.sum_cons, ih2,
                 tick_totalVolume, countN_totalVolume]
      ring
    · simp only [runWindows, windowTrace, List.map_cons, List.sum_cons, ih3,
                 tick_totalCorrection, countN_totalCorrection]
      ring

/-- C2: for every sequence of windows closed after construction (or,
equivalently by `reset_eq_init`, after a reset) with no intervening reset:
`totalDuration` is the sum of the per-window durations, `totalVolume` is
the sum of the per-window `currentVolume` values, and `totalCorrection` is
the sum over windows of `currentCorrection` times that window's
duration. -/
theorem totals_are_window_sums (pin : ℕ) (prop : FlowSensorProperties)
    (ws : List (ℕ × ℕ)) :
    (runWindows (FlowMeter.init pin prop) ws).totalDuration =
      ((windowTrace (FlowMeter.init pin prop) ws).map fun t => t.1).sum ∧
    (runWindows (FlowMeter.init pin prop) ws).totalVolume =
      ((windowTrace (FlowMeter.init pin prop) ws).map fun t => t.2.1).sum ∧
    (runWindows (FlowMeter.init pin prop) ws).totalCorrection =
      ((windowTrace (FlowMeter.init pin prop) ws).map
        fun t => t.2.2 * (t.1 : ℚ)).sum := by
  have h := runWindows_totals ws (FlowMeter.init pin prop)
  simpa [FlowMeter.init] using h

/-- Modelled from the spec: the bodies of `FlowMeter::count` and of the
snapshot-and-clear of `_currentPulses` inside `FlowMeter::tick` are in
FlowMeter.cpp, not in the sources.  Spec sections 4.2 and 5 make each
interrupt increment atomic and require the snapshot-then-clear of the
window close to appear atomic to the interrupt, so an interleaving is a
finite trace of these two atomic events. -/
inductive PulseEvent where
  | pulse : PulseEvent
  | close : PulseEvent

/-- Number of interrupt increments in a trace. -/
def pulses : List PulseEvent → ℕ
  | [] => 0
  | PulseEvent.pulse :: tr => pulses tr + 1
  | PulseEvent.close :: tr => pulses tr

/-- Number of window closes in a trace. -/
def closes : List PulseEvent → ℕ
  | [] => 0
  | PulseEvent.pulse :: tr => closes tr
  | PulseEvent.close :: tr => closes tr + 1

/-- The shared pulse counter together with the pulses the window close
attributed to the closing window. -/
structure PulseCounterState where
  counter : ℕ
  closing : ℕ

/-- One atomic event: an interrupt increment, or the window close's
snapshot-and-clear (which attributes the snapshot to the closing window and
zeroes the counter for the next window). -/
def pulseStep (s : PulseCounterState) : PulseEvent → PulseCounterState
  | PulseEvent.pulse => { s with counter := s.counter + 1 }
  | PulseEvent.close => { counter := 0, closing := s.counter }

/-- Run a trace of atomic events. -/
def runPulseTrace (s : PulseCounterState) : List PulseEvent → PulseCounterState
  | [] => s
  | e :: tr => runPulseTrace (pulseStep s e) tr

theorem runPulseTrace_closes_zero (tr : List PulseEvent)
    (s : PulseCounterState) (h : closes tr = 0) :
    (runPulseTrace s tr).closing = s.closing ∧
    (runPulseTrace s tr).counter = s.counter + pulses tr := by
  induction tr generalizing s with
  | nil => simp [runPulseTrace, pulses]
  | cons e tr ih =>
    cases e with
    | pulse =>
      have h' : closes tr = 0 := by simpa [closes] using h
      obtain ⟨h1, h2⟩ := ih (pulseStep s PulseEvent.pulse) h'
      refine ⟨?_, ?_⟩
      · simpa [pulseStep] using h1
      · simp only [runPulseTrace, pulses] at h2 ⊢
        rw [h2]
        simp [pulseStep]
        omega
    | close => simp [closes] at h

theorem runPulseTrace_closes_one (tr : List PulseEvent)
    (s : PulseCounterState) (h : closes tr = 1) :
    (runPulseTrace s tr).closing + (runPulseTrace s tr).counter =
      s.counter + pulses tr := by
  induction tr generalizing s with
  | nil => simp [closes] at h
  | cons e tr ih =>
    cases e with
    | pulse =>
      have h' : closes tr = 1 := by simpa [closes] using h
      have h2 := ih (pulseStep s PulseEvent.pulse) h'
      simp only [runPulseTrace, pulses]
      rw [h2]
      simp [pulseStep]
      omega
    | close =>
      have h' : closes tr = 0 := by
        simp [closes] at h
        omega
      obtain ⟨h1, h2⟩ :=
        runPulseTrace_closes_zero tr (pulseStep s PulseEvent.close) h'
      simp only [runPulseTrace, pulses]
      rw [h1, h2]
      simp [pulseStep]

/-- C9: in the atomic-event model of the spec's concurrency policy, for
every interleaving of interrupt increments with one window close, every
pulse is attributed to exactly one window: the pulses attributed to the
closing window plus the pulses left for the next window equal the total
number of increments, none double-counted, none dropped. -/
theorem pulse_accounting (tr : List PulseEvent) (h : closes tr = 1) :
    (runPulseTrace ⟨0, 0⟩ tr).closing + (runPulseTrace ⟨0, 0⟩ tr).counter =
      pulses tr := by
  simpa using runPulseTrace_closes_one tr ⟨0, 0⟩ h

theorem pulse_accounting_witness :
    closes [PulseEvent.pulse, PulseEvent.pulse, PulseEvent.close,
            PulseEvent.pulse] = 1 ∧
    (runPulseTrace ⟨0, 0⟩
        [PulseEvent.pulse, PulseEvent.pulse, PulseEvent.close,
         PulseEvent.pulse]).closing +
      (runPulseTrace ⟨0, 0⟩
        [PulseEvent.pulse, PulseEvent.pulse, PulseEvent.close,
         PulseEvent.pulse]).counter =
      pulses [PulseEvent.pulse, PulseEvent.pulse, PulseEvent.close,
              PulseEvent.pulse] :=
  ⟨by decide, pulse_accounting _ (by decide)⟩

end FlowMeterLib
